import Mathlib

/-!
Verification of the simulation engine of the SolarSystem_Simulation repository
(source file solarsystem_simyulation.py).  Python float arithmetic is modelled
over the real numbers; the pygame/OpenGL layer (rendering, event decoding and
the gluUnProject calls) is external, so the picking math takes the two
unprojected points as inputs.  Every definition mirrors the corresponding
lines of the source file, noted in its doc comment.
-/

namespace SolarSim

noncomputable section

/-- Grid side length (source: `self.grid_size = 80`, line 54). -/
def grid_size : ℕ := 80

/-- Grid spacing (source: `self.grid_spacing = 0.6`, line 55). -/
def grid_spacing : ℝ := 0.6

/-- Gravitational constant of the solver (source line 223: `G = 0.1`). -/
def G0 : ℝ := 0.1

/-- Per-step velocity damping factor (source line 257: `damping = 0.999`). -/
def dampingConst : ℝ := 0.999

/-- A 3D point, used for the picking math (`screen_to_world`). -/
structure Vec3 where
  x : ℝ
  y : ℝ
  z : ℝ

/-- The `Planet` class (source lines 9-23).  The color and name carry no
physics and are dropped; `mass` is set to `radius ** 3` at construction
(line 23) and never updated afterwards. -/
structure Planet where
  radius : ℝ
  orbit_radius : ℝ
  orbit_speed : ℝ
  rotation_speed : ℝ
  current_angle : ℝ
  mass : ℝ

/-- The `Planet.__init__` constructor (source lines 10-23): angle starts at 0
and the stored mass is the cube of the radius. -/
def mkPlanet (radius orbit_radius orbit_speed rotation_speed : ℝ) : Planet :=
  { radius := radius
    orbit_radius := orbit_radius
    orbit_speed := orbit_speed
    rotation_speed := rotation_speed
    current_angle := 0
    mass := radius ^ 3 }

instance : Inhabited Planet := ⟨mkPlanet 0 0 0 0⟩

/-- The `CustomMass` class (source lines 25-33).  `position` is the list
`[x, 0.0, z]` and `velocity` starts `[0.0, 0.0, 0.0]`; the physics never
touches the y components.  The trail stores `(x, z)` pairs. -/
structure CustomMass where
  posX : ℝ
  posY : ℝ
  posZ : ℝ
  mass : ℝ
  radius : ℝ
  color : ℝ × ℝ × ℝ
  velX : ℝ
  velY : ℝ
  velZ : ℝ
  is_selected : Bool
  trail : List (ℝ × ℝ)

/-- The `CustomMass.__init__` constructor (source lines 26-33), with the
default purple color of the Python signature. -/
def mkCustomMass (x z mass : ℝ) : CustomMass :=
  { posX := x
    posY := 0
    posZ := z
    mass := mass
    radius := mass ^ ((1 : ℝ) / 3) * 0.5
    color := (0.8, 0.2, 0.8)
    velX := 0
    velY := 0
    velZ := 0
    is_selected := false
    trail := [] }

instance : Inhabited CustomMass := ⟨mkCustomMass 0 0 1⟩

/-- Snapshot of a planet captured at startup for reset
(source lines 71-77: `self.original_planets`). -/
structure PlanetSnapshot where
  angle : ℝ
  orbit_radius : ℝ
  orbit_speed : ℝ

/-- Curvature grid: a fixed 80 by 80 array of heights
(source line 56: `np.zeros((grid_size, grid_size))`). -/
def Grid : Type := Fin grid_size → Fin grid_size → ℝ

/-- The mutable state of `SolarSystemSimulation` (source lines 36-77),
omitting the raw mouse-drag bookkeeping and the display handles, which are
rendering-layer state. -/
structure SimState where
  camera_angle_x : ℝ
  camera_angle_y : ℝ
  camera_distance : ℝ
  time_speed : ℝ
  current_time : ℝ
  paused : Bool
  grid_heights : Grid
  custom_masses : List CustomMass
  selected_mass : Option CustomMass
  spawn_mode : Bool
  spawn_mass : ℝ
  show_trails : Bool
  physics_enabled : Bool
  planets : List Planet
  original_planets : List PlanetSnapshot

/-- Pairwise gravitational force of `m2` on `m1` in the XZ plane
(source lines 230-239): zero unless the separation distance exceeds 0.1,
otherwise magnitude `G * m1.mass * m2.mass / distance ** 2` along the
separation direction. -/
def pairForce (m1 m2 : CustomMass) : ℝ × ℝ :=
  let dx := m2.posX - m1.posX
  let dz := m2.posZ - m1.posZ
  let distance := Real.sqrt (dx * dx + dz * dz)
  if distance > 0.1 then
    let force_magnitude := G0 * m1.mass * m2.mass / distance ^ 2
    (force_magnitude * dx / distance, force_magnitude * dz / distance)
  else (0, 0)

/-- Attraction of a custom mass toward the sun at the origin
(source lines 241-250), with the sun effective mass
`planets[0].radius ** 3 * 10` (line 247). -/
def sunForce (sunRadius : ℝ) (m1 : CustomMass) : ℝ × ℝ :=
  let dx := 0 - m1.posX
  let dz := 0 - m1.posZ
  let distance := Real.sqrt (dx * dx + dz * dz)
  if distance > 0.1 then
    let sun_mass := sunRadius ^ 3 * 10
    let force_magnitude := G0 * m1.mass * sun_mass / distance ^ 2
    (force_magnitude * dx / distance, force_magnitude * dz / distance)
  else (0, 0)

/-- Net force accumulated on `m1` during its iteration
(source lines 226-250): the pairwise forces from every other mass in
iteration order, plus the sun attraction. -/
def netForce (sunRadius : ℝ) (others : List CustomMass) (m1 : CustomMass) : ℝ × ℝ :=
  (others.foldl (fun acc m2 => acc + pairForce m1 m2) ((0 : ℝ), (0 : ℝ)))
    + sunForce sunRadius m1

/-- Trail update of one physics step (source lines 265-268): pop the oldest
entry when the length exceeds 100, then append the new position. -/
def trailPush (trail : List (ℝ × ℝ)) (p : ℝ × ℝ) : List (ℝ × ℝ) :=
  (if trail.length > 100 then trail.drop 1 else trail) ++ [p]

/-- Velocity and position integration of one custom mass
(source lines 252-268): `v += (F/m)*dt`, then the damping factor, then
`p += v*dt`, then the trail update with the new position. -/
def integrate (dt : ℝ) (force : ℝ × ℝ) (m1 : CustomMass) : CustomMass :=
  let vX := (m1.velX + force.1 / m1.mass * dt) * dampingConst
  let vZ := (m1.velZ + force.2 / m1.mass * dt) * dampingConst
  let pX := m1.posX + vX * dt
  let pZ := m1.posZ + vZ * dt
  { m1 with
    velX := vX
    velZ := vZ
    posX := pX
    posZ := pZ
    trail := trailPush m1.trail (pX, pZ) }

/-- One iteration of the first pass of `apply_gravitational_forces`: the mass
at index `i` is updated in place from the current list state (the Python loop
mutates the objects sequentially, so masses before `i` have already moved). -/
def stepAt (sunRadius dt : ℝ) (ms : List CustomMass) (i : ℕ) : List CustomMass :=
  match ms.get? i with
  | some m1 => ms.set i (integrate dt (netForce sunRadius (ms.eraseIdx i) m1) m1)
  | none => ms

/-- First pass of `apply_gravitational_forces` (source lines 226-268):
sequential in-place update of every custom mass. -/
def pass1 (sunRadius dt : ℝ) (ms : List CustomMass) : List CustomMass :=
  (List.range ms.length).foldl (stepAt sunRadius dt) ms

/-- Perturbation contribution of one custom mass on a planet at `(px, pz)`
(source lines 277-286): zero unless the distance exceeds 0.1, otherwise
`mass / distance ** 2 * 0.001` along the separation. -/
def perturbTerm (px pz : ℝ) (m : CustomMass) : ℝ × ℝ :=
  let dx := m.posX - px
  let dz := m.posZ - pz
  let distance := Real.sqrt (dx * dx + dz * dz)
  if distance > 0.1 then
    let perturbation_strength := m.mass / distance ^ 2 * 0.001
    (perturbation_strength * dx / distance, perturbation_strength * dz / distance)
  else (0, 0)

/-- Total perturbation vector accumulated over the custom masses
(source lines 272-286). -/
def perturbSum (px pz : ℝ) (masses : List CustomMass) : ℝ × ℝ :=
  masses.foldl (fun acc m => acc + perturbTerm px pz m) ((0 : ℝ), (0 : ℝ))

/-- Second pass of `apply_gravitational_forces` on one planet
(source lines 271-292): if either perturbation component exceeds 0.001 in
magnitude, scale the orbit speed and orbit radius multiplicatively. -/
def perturbPlanet (masses : List CustomMass) (p : Planet) : Planet :=
  let planet_x := p.orbit_radius * Real.cos p.current_angle
  let planet_z := p.orbit_radius * Real.sin p.current_angle
  let tp := perturbSum planet_x planet_z masses
  if 0.001 < |tp.1| ∨ 0.001 < |tp.2| then
    { p with
      orbit_speed := p.orbit_speed * (1 + tp.1 * 0.01)
      orbit_radius := p.orbit_radius * (1 + tp.2 * 0.001) }
  else p

/-- Second pass over `planets[1:]` (source line 271 skips the sun). -/
def pass2 (masses : List CustomMass) (planets : List Planet) : List Planet :=
  match planets with
  | [] => []
  | sun :: rest => sun :: rest.map (perturbPlanet masses)

/-- `apply_gravitational_forces` (source lines 218-292): a no-op when physics
is disabled, otherwise the sequential mass update followed by the planet
perturbation pass, which sees the already-updated mass positions. -/
def apply_gravitational_forces (s : SimState) (dt : ℝ) : SimState :=
  if s.physics_enabled then
    let sunRadius := s.planets.headI.radius
    let ms := pass1 sunRadius dt s.custom_masses
    { s with custom_masses := ms, planets := pass2 ms s.planets }
  else s

/-- World-plane x (and z) coordinate of grid row `i`
(source line 324: `(i - grid_size // 2) * grid_spacing`). -/
def gridCoord (i : ℕ) : ℝ := ((i : ℝ) - ((grid_size / 2 : ℕ) : ℝ)) * grid_spacing

/-- Height contribution of a mass at `(x, z)` to grid cell `(i, j)`
(source lines 324-331): `-mass / max(distance, 0.1) ** 2 * 2.0`. -/
def curvatureTerm (x z mass : ℝ) (i j : ℕ) : ℝ :=
  let grid_x := gridCoord i
  let grid_z := gridCoord j
  let distance := max (Real.sqrt ((grid_x - x) ^ 2 + (grid_z - z) ^ 2)) 0.1;
  -mass / distance ^ 2 * 2.0

/-- `_add_mass_to_grid` (source lines 320-332): add one mass effect to every
cell of the grid. -/
def add_mass_to_grid (g : Grid) (x z mass : ℝ) : Grid :=
  fun i j => g i j + curvatureTerm x z mass i j

/-- XZ position a planet contributes to the grid (source lines 307-312): the
origin when the orbit radius is zero, the orbital position otherwise. -/
def planetGridPos (p : Planet) : ℝ × ℝ :=
  if p.orbit_radius = 0 then (0, 0)
  else (p.orbit_radius * Real.cos p.current_angle, p.orbit_radius * Real.sin p.current_angle)

/-- `update_spacetime_grid` (source lines 300-318): zero the grid, then add
every planet with the weight `planet.radius ** 2` (line 314) and every custom
mass with its mass.  The previous grid stored in the state is never read. -/
def update_spacetime_grid (s : SimState) : Grid :=
  let g0 : Grid := fun _ _ => 0
  let g1 := s.planets.foldl
    (fun g p => add_mass_to_grid g (planetGridPos p).1 (planetGridPos p).2 (p.radius ^ 2)) g0
  s.custom_masses.foldl (fun g m => add_mass_to_grid g m.posX m.posZ m.mass) g1

/-- `screen_to_world` (source lines 161-185), after the two external
`gluUnProject` calls produced `near_point` and `far_point`: intersect the
near-far line with the plane y = 0, or fall back to the origin when the y
components differ by at most 0.001. -/
def screen_to_world (near_point far_point : Vec3) : Vec3 :=
  if |far_point.y - near_point.y| > 0.001 then
    let t := -near_point.y / (far_point.y - near_point.y)
    { x := near_point.x + t * (far_point.x - near_point.x)
      y := 0
      z := near_point.z + t * (far_point.z - near_point.z) }
  else { x := 0, y := 0, z := 0 }

/-- XZ distance from a custom mass to a world position
(source lines 208-210). -/
def massDistance (world_pos : Vec3) (m : CustomMass) : ℝ :=
  let dx := m.posX - world_pos.x
  let dz := m.posZ - world_pos.z
  Real.sqrt (dx * dx + dz * dz)

/-- The scan loop of `find_nearest_mass` (source lines 204-216), carrying the
running minimum distance and the best candidate. -/
def find_nearest_aux (world_pos : Vec3) :
    List CustomMass → ℝ → Option CustomMass → Option CustomMass
  | [], _, nearest => nearest
  | m :: rest, min_distance, nearest =>
    let d := massDistance world_pos m
    if d < min_distance then find_nearest_aux world_pos rest d (some m)
    else find_nearest_aux world_pos rest min_distance nearest

/-- `find_nearest_mass` (source lines 202-216); the Python default for
`max_distance` is 2.0. -/
def find_nearest_mass (masses : List CustomMass) (world_pos : Vec3)
    (max_distance : ℝ) : Option CustomMass :=
  find_nearest_aux world_pos masses max_distance none

/-- The `K_c` branch of `handle_input` (source lines 467-469): clear the
custom-mass list.  Nothing else is touched, in particular `selected_mass`
keeps its old reference. -/
def clear_all_masses (s : SimState) : SimState :=
  { s with custom_masses := [] }

/-- Restoring one planet from its startup snapshot
(source lines 561-564). -/
def restorePlanet (pr : Planet × PlanetSnapshot) : Planet :=
  { pr.1 with
    current_angle := pr.2.angle
    orbit_radius := pr.2.orbit_radius
    orbit_speed := pr.2.orbit_speed }

/-- `reset_simulation` (source lines 554-566): zero the clock, clear masses
and selection, restore each planet from `original_planets`. -/
def reset_simulation (s : SimState) : SimState :=
  { s with
    current_time := 0
    custom_masses := []
    selected_mass := none
    planets := (s.planets.zip s.original_planets).map restorePlanet }

/-- Orbital phase advance of one planet (source lines 575-577):
`angle += orbit_speed * dt * time_speed`, then a single wraparound
subtraction of 2 pi when the result exceeds 2 pi. -/
def advancePlanet (dt time_speed : ℝ) (p : Planet) : Planet :=
  let a := p.current_angle + p.orbit_speed * dt * time_speed
  if a > 2 * Real.pi then { p with current_angle := a - 2 * Real.pi }
  else { p with current_angle := a }

/-- `update` (source lines 568-583): when not paused, advance the clock, the
non-central planets, the gravity solver (with `dt * time_speed`) and the
curvature grid. -/
def update (s : SimState) (dt : ℝ) : SimState :=
  if s.paused then s
  else
    let s1 := { s with
      current_time := s.current_time + dt * s.time_speed
      planets := match s.planets with
        | [] => []
        | sun :: rest => sun :: rest.map (advancePlanet dt s.time_speed) }
    let s2 := apply_gravitational_forces s1 (dt * s.time_speed)
    { s2 with grid_heights := update_spacetime_grid s2 }

/-!  Spec-side definitions.  The following definitions follow the wording of
the specification claims (with the cutoff amended from strictly-below-0.1 to
at-most-0.1 where the code differs); the theorems below compare them with the
definitions taken from the source. -/

/-- Spec-side pairwise force: magnitude `G * m1 * m2 / d ^ 2` along the XZ
unit separation vector, a pair at separation at most 0.1 contributing zero. -/
def specPairForce (m1 m2 : CustomMass) : ℝ × ℝ :=
  let dx := m2.posX - m1.posX
  let dz := m2.posZ - m1.posZ
  let d := Real.sqrt (dx * dx + dz * dz)
  if d ≤ 0.1 then (0, 0)
  else (G0 * m1.mass * m2.mass / d ^ 2 * (dx / d),
        G0 * m1.mass * m2.mass / d ^ 2 * (dz / d))

/-- Spec-side attraction toward the origin with the central body effective
mass `10 * radius ^ 3`, zero when the distance to the origin is at most
0.1. -/
def specSunForce (sunRadius : ℝ) (m1 : CustomMass) : ℝ × ℝ :=
  let d := Real.sqrt (m1.posX ^ 2 + m1.posZ ^ 2)
  if d ≤ 0.1 then (0, 0)
  else (G0 * m1.mass * (10 * sunRadius ^ 3) / d ^ 2 * ((0 - m1.posX) / d),
        G0 * m1.mass * (10 * sunRadius ^ 3) / d ^ 2 * ((0 - m1.posZ) / d))

/-- Spec-side net force: the sum of the pairwise forces over the other
masses plus the attraction toward the origin. -/
def specNetForce (sunRadius : ℝ) (others : List CustomMass) (m1 : CustomMass) : ℝ × ℝ :=
  (others.map (specPairForce m1)).sum + specSunForce sunRadius m1

/-- Spec-side integration: `v += (F/m)*dt`, one multiplication by the
damping factor 0.999 independent of dt, then `p += v*dt` with the damped
velocity, then the trail append. -/
def specIntegrate (dt : ℝ) (force : ℝ × ℝ) (m : CustomMass) : CustomMass :=
  let v2 := ((m.velX + force.1 / m.mass * dt) * 0.999,
             (m.velZ + force.2 / m.mass * dt) * 0.999)
  let p2 := (m.posX + v2.1 * dt, m.posZ + v2.2 * dt)
  { m with
    velX := v2.1
    velZ := v2.2
    posX := p2.1
    posZ := p2.2
    trail := trailPush m.trail p2 }

/-- Spec-side single-index update of the sequential solver pass. -/
def specStepAt (sunRadius dt : ℝ) (ms : List CustomMass) (i : ℕ) : List CustomMass :=
  match ms.get? i with
  | some m1 => ms.set i (specIntegrate dt (specNetForce sunRadius (ms.eraseIdx i) m1) m1)
  | none => ms

/-- Spec-side sequential solver pass over all custom masses. -/
def specPass1 (sunRadius dt : ℝ) (ms : List CustomMass) : List CustomMass :=
  (List.range ms.length).foldl (specStepAt sunRadius dt) ms

/-- Spec-side perturbation contribution: `mass / d ^ 2 * 0.001` along the
separation, a term at distance at most 0.1 contributing zero. -/
def specPerturbTerm (px pz : ℝ) (m : CustomMass) : ℝ × ℝ :=
  let dx := m.posX - px
  let dz := m.posZ - pz
  let d := Real.sqrt (dx * dx + dz * dz)
  if d ≤ 0.1 then (0, 0)
  else (m.mass / d ^ 2 * 0.001 * (dx / d), m.mass / d ^ 2 * 0.001 * (dz / d))

/-- Spec-side planet perturbation: the summed perturbation vector, applied
multiplicatively to the angular speed and the orbit radius when either
component exceeds 0.001 in magnitude. -/
def specPerturbPlanet (masses : List CustomMass) (p : Planet) : Planet :=
  let px := p.orbit_radius * Real.cos p.current_angle
  let pz := p.orbit_radius * Real.sin p.current_angle
  let tp := (masses.map (specPerturbTerm px pz)).sum
  if 0.001 < |tp.1| ∨ 0.001 < |tp.2| then
    { p with
      orbit_speed := p.orbit_speed * (1 + tp.1 * 0.01)
      orbit_radius := p.orbit_radius * (1 + tp.2 * 0.001) }
  else p

/-!  Claim-as-stated definitions, used only to refute the frozen claims at
concrete inputs.  Each follows the exact wording of its claim, with the
cutoff at strictly-below-0.1 (claims C1 and C4) or with the planet grid mass
`radius ^ 3` (claim C3). -/

/-- Pairwise force exactly as claim C1 states it: a pair contributes zero
only when the separation distance is strictly below 0.1. -/
def claimPairForce (m1 m2 : CustomMass) : ℝ × ℝ :=
  let dx := m2.posX - m1.posX
  let dz := m2.posZ - m1.posZ
  let d := Real.sqrt (dx * dx + dz * dz)
  if d < 0.1 then (0, 0)
  else (G0 * m1.mass * m2.mass / d ^ 2 * (dx / d),
        G0 * m1.mass * m2.mass / d ^ 2 * (dz / d))

/-- Sun attraction exactly as claim C1 states it: zero only when the
distance to the origin is strictly below 0.1. -/
def claimSunForce (sunRadius : ℝ) (m1 : CustomMass) : ℝ × ℝ :=
  let d := Real.sqrt (m1.posX ^ 2 + m1.posZ ^ 2)
  if d < 0.1 then (0, 0)
  else (G0 * m1.mass * (10 * sunRadius ^ 3) / d ^ 2 * ((0 - m1.posX) / d),
        G0 * m1.mass * (10 * sunRadius ^ 3) / d ^ 2 * ((0 - m1.posZ) / d))

/-- Net force exactly as claim C1 states it. -/
def claimNetForce (sunRadius : ℝ) (others : List CustomMass) (m1 : CustomMass) : ℝ × ℝ :=
  (others.map (claimPairForce m1)).sum + claimSunForce sunRadius m1

/-- Perturbation contribution exactly as claim C4 states it: a term
contributes zero only when the distance is strictly below 0.1. -/
def claimPerturbTerm (px pz : ℝ) (m : CustomMass) : ℝ × ℝ :=
  let dx := m.posX - px
  let dz := m.posZ - pz
  let d := Real.sqrt (dx * dx + dz * dz)
  if d < 0.1 then (0, 0)
  else (m.mass / d ^ 2 * 0.001 * (dx / d), m.mass / d ^ 2 * 0.001 * (dz / d))

/-- Planet perturbation exactly as claim C4 states it. -/
def claimPerturbPlanet (masses : List CustomMass) (p : Planet) : Planet :=
  let px := p.orbit_radius * Real.cos p.current_angle
  let pz := p.orbit_radius * Real.sin p.current_angle
  let tp := (masses.map (claimPerturbTerm px pz)).sum
  if 0.001 < |tp.1| ∨ 0.001 < |tp.2| then
    { p with
      orbit_speed := p.orbit_speed * (1 + tp.1 * 0.01)
      orbit_radius := p.orbit_radius * (1 + tp.2 * 0.001) }
  else p

/-- Curvature grid exactly as claim C3 states it: a planet enters the grid
with the mass `radius ^ 3` recomputed from its radius. -/
def update_spacetime_grid_claim (s : SimState) : Grid :=
  fun i j =>
    (s.planets.map
      (fun q => curvatureTerm (planetGridPos q).1 (planetGridPos q).2 (q.radius ^ 3) i j)).sum
    + (s.custom_masses.map (fun m => curvatureTerm m.posX m.posZ m.mass i j)).sum

/-- Boundedness of all trails of a mass list, the invariant of claim C2. -/
def trailsBounded (ms : List CustomMass) : Prop :=
  ∀ m ∈ ms, m.trail.length ≤ 101

/-!  Concrete states and bodies used by the witnesses and
counterexamples. -/

/-- A concrete state with the sun only, physics enabled. -/
def state0 : SimState where
  camera_angle_x := 30
  camera_angle_y := 0
  camera_distance := 50
  time_speed := 1
  current_time := 0
  paused := false
  grid_heights := fun _ _ => 0
  custom_masses := []
  selected_mass := none
  spawn_mode := false
  spawn_mass := 5
  show_trails := true
  physics_enabled := true
  planets := [mkPlanet 2 0 0 0.1]
  original_planets := [⟨0, 0, 0⟩]

/-- A selected custom mass, as left by a click-select. -/
def mSel : CustomMass := { mkCustomMass 3 4 5 with is_selected := true }

/-- A concrete state in which `mSel` is in the collection and selected. -/
def stateSel : SimState :=
  { state0 with custom_masses := [mSel], selected_mass := some mSel }

/-- Grid index 40, the central row and column of the 80 by 80 grid. -/
def idx40 : Fin grid_size := ⟨40, by norm_num [grid_size]⟩

/-- The planet used to refute claim C6: phase angle pi, angular speed 1. -/
def pC6 : Planet := { mkPlanet 1 1 1 1 with current_angle := Real.pi }

/-- Masses used to refute claim C1: at the origin and at distance exactly
0.1 from it. -/
def cexA : CustomMass := mkCustomMass 0 0 1

/-- Second mass of the claim C1 counterexample, at `(0.1, 0)`. -/
def cexB : CustomMass := mkCustomMass 0.1 0 1

/-- Planet of the claim C4 counterexample: orbit radius 5, angular speed 2,
phase angle 0, so its XZ position is `(5, 0)`. -/
def cexP : Planet := mkPlanet 0.4 5 2 0.7

/-- Custom mass of the claim C4 counterexample, at distance exactly 0.1 from
the planet position `(5, 0)`. -/
def cexM : CustomMass := mkCustomMass 5.1 0 1

/-- A custom mass resting at the origin carrying the given trail. -/
def originMass (t : List (ℝ × ℝ)) : CustomMass :=
  { mkCustomMass 0 0 1 with trail := t }

/-- A state with a single custom mass resting at the origin carrying the
given trail; the mass feels no force there, so each solver step only grows
the trail. -/
def originState (t : List (ℝ × ℝ)) : SimState :=
  { state0 with custom_masses := [originMass t] }

/-- First custom mass of the claim C9 witness, at the origin. -/
def wMassA : CustomMass := mkCustomMass 0 0 1

/-- Second custom mass of the claim C9 witness, at `(1, 0)`. -/
def wMassB : CustomMass := mkCustomMass 1 0 1

/-- Query point of the claim C9 witness, equidistant from both masses. -/
def wPoint : Vec3 := { x := 0.5, y := 0, z := 0 }

end

/-!  Helper lemmas. -/

lemma sqrt_of_sq (a c : ℝ) (hc : 0 ≤ c) (h : a = c ^ 2) : Real.sqrt a = c := by
  rw [h]
  exact Real.sqrt_sq hc

lemma foldl_add_eq_sum {α M : Type} [AddCommMonoid M] (f : α → M) (l : List α) (a : M) :
    l.foldl (fun acc x => acc + f x) a = a + (l.map f).sum := by
  induction l generalizing a with
  | nil => simp
  | cons x xs ih => simp [ih, add_assoc]

lemma pairForce_eq_spec (m1 m2 : CustomMass) : pairForce m1 m2 = specPairForce m1 m2 := by
  unfold pairForce specPairForce
  by_cases hd : Real.sqrt ((m2.posX - m1.posX) * (m2.posX - m1.posX)
      + (m2.posZ - m1.posZ) * (m2.posZ - m1.posZ)) ≤ 0.1
  · simp only [if_neg (not_lt.mpr hd), if_pos hd]
  · simp only [if_pos (not_le.mp hd), if_neg hd, Prod.mk.injEq]
    constructor <;> rw [mul_div_assoc]

lemma sunForce_eq_spec (sunRadius : ℝ) (m1 : CustomMass) :
    sunForce sunRadius m1 = specSunForce sunRadius m1 := by
  have harg : (0 - m1.posX) * (0 - m1.posX) + (0 - m1.posZ) * (0 - m1.posZ)
      = m1.posX ^ 2 + m1.posZ ^ 2 := by ring
  unfold sunForce specSunForce
  simp only [harg]
  by_cases hd : Real.sqrt (m1.posX ^ 2 + m1.posZ ^ 2) ≤ 0.1
  · simp only [if_neg (not_lt.mpr hd), if_pos hd]
  · simp only [if_pos (not_le.mp hd), if_neg hd, Prod.mk.injEq]
    constructor <;> ring

lemma netForce_eq_spec (sunRadius : ℝ) (others : List CustomMass) (m1 : CustomMass) :
    netForce sunRadius others m1 = specNetForce sunRadius others m1 := by
  unfold netForce specNetForce
  rw [foldl_add_eq_sum (pairForce m1) others ((0 : ℝ), (0 : ℝ)),
    show ((0 : ℝ), (0 : ℝ)) = (0 : ℝ × ℝ) from rfl, zero_add,
    sunForce_eq_spec,
    show pairForce m1 = specPairForce m1 from funext fun m2 => pairForce_eq_spec m1 m2]

lemma integrate_eq_spec (dt : ℝ) (force : ℝ × ℝ) (m : CustomMass) :
    integrate dt force m = specIntegrate dt force m := by
  simp [integrate, specIntegrate, dampingConst]

lemma stepAt_eq_spec (sunRadius dt : ℝ) (ms : List CustomMass) (i : ℕ) :
    stepAt sunRadius dt ms i = specStepAt sunRadius dt ms i := by
  unfold stepAt specStepAt
  cases h : ms.get? i with
  | none => rfl
  | some m1 => simp only [integrate_eq_spec, netForce_eq_spec]

lemma pass1_eq_spec (sunRadius dt : ℝ) (ms : List CustomMass) :
    pass1 sunRadius dt ms = specPass1 sunRadius dt ms := by
  unfold pass1 specPass1
  congr 1
  funext cur i
  exact stepAt_eq_spec sunRadius dt cur i

lemma perturbTerm_eq_spec (px pz : ℝ) (m : CustomMass) :
    perturbTerm px pz m = specPerturbTerm px pz m := by
  unfold perturbTerm specPerturbTerm
  by_cases hd : Real.sqrt ((m.posX - px) * (m.posX - px)
      + (m.posZ - pz) * (m.posZ - pz)) ≤ 0.1
  · simp only [if_neg (not_lt.mpr hd), if_pos hd]
  · simp only [if_pos (not_le.mp hd), if_neg hd, Prod.mk.injEq]
    constructor <;> rw [mul_div_assoc]

lemma perturbSum_eq_sum (px pz : ℝ) (masses : List CustomMass) :
    perturbSum px pz masses = (masses.map (specPerturbTerm px pz)).sum := by
  unfold perturbSum
  rw [foldl_add_eq_sum (perturbTerm px pz) masses ((0 : ℝ), (0 : ℝ)),
    show ((0 : ℝ), (0 : ℝ)) = (0 : ℝ × ℝ) from rfl, zero_add,
    show perturbTerm px pz = specPerturbTerm px pz from
      funext fun m => perturbTerm_eq_spec px pz m]

lemma perturbPlanet_eq_spec (masses : List CustomMass) (p : Planet) :
    perturbPlanet masses p = specPerturbPlanet masses p := by
  unfold perturbPlanet specPerturbPlanet
  simp only [perturbSum_eq_sum]

lemma trailPush_length (t : List (ℝ × ℝ)) (p : ℝ × ℝ) :
    (trailPush t p).length = if 100 < t.length then t.length else t.length + 1 := by
  by_cases h : 100 < t.length
  · simp only [trailPush, if_pos h, List.length_append, List.length_drop,
      List.length_singleton]
    omega
  · simp only [trailPush, if_neg h, List.length_append, List.length_singleton]

lemma trailPush_le_101 (t : List (ℝ × ℝ)) (p : ℝ × ℝ) (h : t.length ≤ 101) :
    (trailPush t p).length ≤ 101 := by
  rw [trailPush_length]
  split <;> omega

lemma foldl_trailPush_window (ps : List (ℝ × ℝ)) :
    ∀ t : List (ℝ × ℝ), t.length ≤ 101 →
      ps.foldl trailPush t = (t ++ ps).drop (t.length + ps.length - 101) := by
  induction ps with
  | nil =>
    intro t ht
    simp only [List.foldl_nil, List.append_nil, List.length_nil, Nat.add_zero]
    have h0 : t.length - 101 = 0 := by omega
    rw [h0, List.drop_zero]
  | cons p ps ih =>
    intro t ht
    rw [List.foldl_cons]
    by_cases h : 100 < t.length
    · have h101 : t.length = 101 := by omega
      cases t with
      | nil => simp at h101
      | cons a t0 =>
        have h100 : t0.length = 100 := by
          simp only [List.length_cons] at h101
          omega
        have hpush : trailPush (a :: t0) p = t0 ++ [p] := by
          simp only [trailPush, if_pos h, List.drop_succ_cons, List.drop_zero]
        rw [hpush]
        have hlen : (t0 ++ [p]).length ≤ 101 := by simp [h100]
        rw [ih (t0 ++ [p]) hlen]
        have h2 : (t0 ++ [p]).length + ps.length - 101 = ps.length := by
          simp [h100]
        have h3 : (a :: t0).length + (p :: ps).length - 101 = ps.length + 1 := by
          simp [h100]
        rw [h2, h3]
        have h4 : (a :: t0) ++ p :: ps = a :: (t0 ++ p :: ps) := by simp
        rw [h4, List.drop_succ_cons]
        have h5 : (t0 ++ [p]) ++ ps = t0 ++ p :: ps := by simp
        rw [h5]
    · have hpush : trailPush t p = t ++ [p] := by
        simp only [trailPush, if_neg h]
      rw [hpush]
      have hlen : (t ++ [p]).length ≤ 101 := by simp; omega
      rw [ih (t ++ [p]) hlen]
      have h2 : (t ++ [p]).length + ps.length
          = t.length + (p :: ps).length := by simp; omega
      rw [h2]
      have h3 : (t ++ [p]) ++ ps = t ++ p :: ps := by simp
      rw [h3]

lemma stepAt_trailsBounded (sunRadius dt : ℝ) (ms : List CustomMass) (i : ℕ)
    (h : trailsBounded ms) : trailsBounded (stepAt sunRadius dt ms i) := by
  unfold stepAt
  cases hg : ms.get? i with
  | none => exact h
  | some m1 =>
    intro m hm
    rcases List.mem_or_eq_of_mem_set hm with hmem | heq
    · exact h m hmem
    · subst heq
      simp only [integrate]
      exact trailPush_le_101 _ _ (h m1 (List.get?_mem hg))

lemma pass1_trailsBounded (sunRadius dt : ℝ) (ms : List CustomMass)
    (h : trailsBounded ms) : trailsBounded (pass1 sunRadius dt ms) := by
  unfold pass1
  generalize List.range ms.length = idxs
  induction idxs generalizing ms with
  | nil => exact h
  | cons i idxs ih =>
    rw [List.foldl_cons]
    exact ih (stepAt sunRadius dt ms i) (stepAt_trailsBounded sunRadius dt ms i h)

lemma find_nearest_aux_no_hit (wp : Vec3) :
    ∀ (l : List CustomMass) (c : ℝ) (acc : Option CustomMass),
      (∀ m ∈ l, c ≤ massDistance wp m) → find_nearest_aux wp l c acc = acc := by
  intro l
  induction l with
  | nil => intro c acc _; rfl
  | cons m rest ih =>
    intro c acc h
    have hm : c ≤ massDistance wp m := h m (List.mem_cons_self m rest)
    simp only [find_nearest_aux]
    rw [if_neg (not_lt.mpr hm)]
    exact ih c acc fun m2 hm2 => h m2 (List.mem_cons_of_mem m hm2)

lemma find_nearest_aux_hit (wp : Vec3) :
    ∀ (l : List CustomMass) (c : ℝ) (acc : Option CustomMass),
      (∃ m ∈ l, massDistance wp m < c) →
      ∃ m0 l1 l2,
        find_nearest_aux wp l c acc = some m0
        ∧ l = l1 ++ m0 :: l2
        ∧ massDistance wp m0 < c
        ∧ (∀ m ∈ l, massDistance wp m0 ≤ massDistance wp m)
        ∧ (∀ m ∈ l1, massDistance wp m0 < massDistance wp m) := by
  intro l
  induction l with
  | nil =>
    rintro c acc ⟨m, hm, _⟩
    exact absurd hm (List.not_mem_nil m)
  | cons m rest ih =>
    intro c acc hex
    simp only [find_nearest_aux]
    by_cases hlt : massDistance wp m < c
    · rw [if_pos hlt]
      by_cases hex2 : ∃ m2 ∈ rest, massDistance wp m2 < massDistance wp m
      · obtain ⟨m0, l1, l2, heq, hsplit, hlt0, hall, hbefore⟩ :=
          ih (massDistance wp m) (some m) hex2
        refine ⟨m0, m :: l1, l2, heq, by rw [hsplit, List.cons_append],
          lt_trans hlt0 hlt, ?_, ?_⟩
        · intro m2 hm2
          rcases List.mem_cons.mp hm2 with h1 | h2
          · subst h1
            exact le_of_lt hlt0
          · exact hall m2 h2
        · intro m2 hm2
          rcases List.mem_cons.mp hm2 with h1 | h2
          · subst h1
            exact hlt0
          · exact hbefore m2 h2
      · push_neg at hex2
        rw [find_nearest_aux_no_hit wp rest (massDistance wp m) (some m) hex2]
        refine ⟨m, [], rest, rfl, rfl, hlt, ?_, by intro m2 h2; cases h2⟩
        intro m2 hm2
        rcases List.mem_cons.mp hm2 with h1 | h2
        · subst h1
          exact le_refl _
        · exact hex2 m2 h2
    · rw [if_neg hlt]
      have hex2 : ∃ m2 ∈ rest, massDistance wp m2 < c := by
        obtain ⟨m2, hm2, hd2⟩ := hex
        rcases List.mem_cons.mp hm2 with h1 | h2
        · subst h1
          exact absurd hd2 hlt
        · exact ⟨m2, h2, hd2⟩
      obtain ⟨m0, l1, l2, heq, hsplit, hlt0, hall, hbefore⟩ := ih c acc hex2
      have hmle : massDistance wp m0 ≤ massDistance wp m :=
        le_trans (le_of_lt hlt0) (not_lt.mp hlt)
      refine ⟨m0, m :: l1, l2, heq, by rw [hsplit, List.cons_append], hlt0, ?_, ?_⟩
      · intro m2 hm2
        rcases List.mem_cons.mp hm2 with h1 | h2
        · subst h1
          exact hmle
        · exact hall m2 h2
      · intro m2 hm2
        rcases List.mem_cons.mp hm2 with h1 | h2
        · subst h1
          exact lt_of_lt_of_le hlt0 (not_lt.mp hlt)
        · exact hbefore m2 h2

lemma planets_fold_apply (l : List Planet) (g : Grid) (i j : Fin grid_size) :
    (l.foldl
      (fun gg p =>
        add_mass_to_grid gg (planetGridPos p).1 (planetGridPos p).2 (p.radius ^ 2)) g) i j
      = g i j
        + (l.map
            (fun p =>
              curvatureTerm (planetGridPos p).1 (planetGridPos p).2 (p.radius ^ 2)
                (i : ℕ) (j : ℕ))).sum := by
  induction l generalizing g with
  | nil => simp
  | cons p ps ih =>
    rw [List.foldl_cons, ih]
    simp [add_mass_to_grid, add_assoc]

lemma masses_fold_apply (l : List CustomMass) (g : Grid) (i j : Fin grid_size) :
    (l.foldl (fun gg m => add_mass_to_grid gg m.posX m.posZ m.mass) g) i j
      = g i j
        + (l.map (fun m => curvatureTerm m.posX m.posZ m.mass (i : ℕ) (j : ℕ))).sum := by
  induction l generalizing g with
  | nil => simp
  | cons m ms ih =>
    rw [List.foldl_cons, ih]
    simp [add_mass_to_grid, add_assoc]

/-!  Claim theorems. -/

/-- Claim C7: when physics is disabled by configuration, the gravity-solver
step is a complete no-op: the whole simulation state, in particular every
custom mass position, velocity and trail and every planet orbit radius and
angular speed, is unchanged. -/
theorem physics_disabled_noop (s : SimState) (dt : ℝ)
    (h : s.physics_enabled = false) :
    apply_gravitational_forces s dt = s := by
  simp [apply_gravitational_forces, h]

theorem physics_disabled_noop_witness :
    apply_gravitational_forces { state0 with physics_enabled := false } 1
      = { state0 with physics_enabled := false } :=
  physics_disabled_noop { state0 with physics_enabled := false } 1 rfl

/-- Claim C5: the code is wrong here.  The clear-all handler empties the
custom-mass collection but does not clear the selection: evaluated on a state
with a selected mass, `selected_mass` still refers to the removed mass. -/
theorem clear_all_keeps_stale_selection :
    (clear_all_masses stateSel).custom_masses = []
    ∧ (clear_all_masses stateSel).selected_mass = some mSel
    ∧ some mSel ≠ (none : Option CustomMass) := by
  refine ⟨rfl, rfl, ?_⟩
  simp

/-- Claim C10: reset modifies only the clock, the custom masses, the
selection and each planet restoration triple (angle, orbit radius, orbit
speed); every configuration flag, the camera state and the grid are left
unchanged, and a restored planet keeps its radius, rotation speed and stored
mass. -/
theorem reset_touches_only_sim_state (s : SimState) (p : Planet)
    (o : PlanetSnapshot) :
    (reset_simulation s).paused = s.paused
    ∧ (reset_simulation s).time_speed = s.time_speed
    ∧ (reset_simulation s).spawn_mass = s.spawn_mass
    ∧ (reset_simulation s).spawn_mode = s.spawn_mode
    ∧ (reset_simulation s).show_trails = s.show_trails
    ∧ (reset_simulation s).physics_enabled = s.physics_enabled
    ∧ (reset_simulation s).camera_angle_x = s.camera_angle_x
    ∧ (reset_simulation s).camera_angle_y = s.camera_angle_y
    ∧ (reset_simulation s).camera_distance = s.camera_distance
    ∧ (reset_simulation s).grid_heights = s.grid_heights
    ∧ (reset_simulation s).original_planets = s.original_planets
    ∧ (reset_simulation s).current_time = 0
    ∧ (reset_simulation s).custom_masses = []
    ∧ (reset_simulation s).selected_mass = none
    ∧ (reset_simulation s).planets = (s.planets.zip s.original_planets).map restorePlanet
    ∧ (restorePlanet (p, o)).radius = p.radius
    ∧ (restorePlanet (p, o)).rotation_speed = p.rotation_speed
    ∧ (restorePlanet (p, o)).mass = p.mass
    ∧ (restorePlanet (p, o)).current_angle = o.angle
    ∧ (restorePlanet (p, o)).orbit_radius = o.orbit_radius
    ∧ (restorePlanet (p, o)).orbit_speed = o.orbit_speed :=
  ⟨rfl, rfl, rfl, rfl, rfl, rfl, rfl, rfl, rfl, rfl, rfl, rfl, rfl, rfl, rfl,
    rfl, rfl, rfl, rfl, rfl, rfl⟩

/-- Claim C6 counterexample: advancing `pC6` by dt = pi lands the phase angle
exactly on 2 pi, which is not in the half-open interval [0, 2 pi). -/
theorem advance_angle_hits_two_pi :
    (advancePlanet Real.pi 1 pC6).current_angle = 2 * Real.pi
    ∧ ¬ (advancePlanet Real.pi 1 pC6).current_angle < 2 * Real.pi := by
  have ha : pC6.current_angle + pC6.orbit_speed * Real.pi * 1 = 2 * Real.pi := by
    show Real.pi + 1 * Real.pi * 1 = 2 * Real.pi
    ring
  have h1 : (advancePlanet Real.pi 1 pC6).current_angle = 2 * Real.pi := by
    simp only [advancePlanet]
    rw [ha, if_neg (lt_irrefl (2 * Real.pi))]
  exact ⟨h1, by rw [h1]; exact lt_irrefl _⟩

/-- Claim C6 (amended): when the prior phase angle lies in the closed
interval [0, 2 pi] and the increment `orbit_speed * dt * time_speed` lies in
[0, 2 pi], the advanced angle lies in [0, 2 pi]; the closed upper bound 2 pi
is attainable, so the half-open interval of the original claim does not
hold. -/
theorem advance_angle_bounds (p : Planet) (dt ts : ℝ)
    (h0 : 0 ≤ p.current_angle) (h1 : p.current_angle ≤ 2 * Real.pi)
    (h2 : 0 ≤ p.orbit_speed * dt * ts)
    (h3 : p.orbit_speed * dt * ts ≤ 2 * Real.pi) :
    0 ≤ (advancePlanet dt ts p).current_angle
    ∧ (advancePlanet dt ts p).current_angle ≤ 2 * Real.pi := by
  simp only [advancePlanet]
  split_ifs with h
  · constructor <;> dsimp only <;> linarith
  · constructor <;> dsimp only <;> linarith

theorem advance_angle_bounds_witness :
    0 ≤ (advancePlanet 1 1 (mkPlanet 1 5 1 1)).current_angle
    ∧ (advancePlanet 1 1 (mkPlanet 1 5 1 1)).current_angle ≤ 2 * Real.pi := by
  have hpi : (1 : ℝ) ≤ 2 * Real.pi := by
    nlinarith [Real.pi_gt_three]
  exact advance_angle_bounds (mkPlanet 1 5 1 1) 1 1 (le_refl 0) (by positivity)
    (by norm_num [mkPlanet]) (by simpa [mkPlanet] using hpi)

/-- Claim C8: the picking math returns the parametric intersection of the
near-far line with the plane y = 0 (with y component exactly 0) when the y
components of the unprojected points differ by more than 0.001 in magnitude,
and the origin fallback otherwise. -/
theorem screen_to_world_ground_spec (near_point far_point : Vec3) :
    screen_to_world near_point far_point
      = (if 0.001 < |far_point.y - near_point.y| then
          { x := near_point.x
              + -near_point.y / (far_point.y - near_point.y)
                * (far_point.x - near_point.x)
            y := 0
            z := near_point.z
              + -near_point.y / (far_point.y - near_point.y)
                * (far_point.z - near_point.z) }
         else { x := 0, y := 0, z := 0 })
    ∧ (0.001 < |far_point.y - near_point.y| →
        near_point.y
          + -near_point.y / (far_point.y - near_point.y)
            * (far_point.y - near_point.y) = 0
        ∧ (screen_to_world near_point far_point).y = 0) := by
  constructor
  · rfl
  · intro h
    have hne : far_point.y - near_point.y ≠ 0 := by
      intro h0
      rw [h0] at h
      simp at h
      linarith
    constructor
    · rw [div_mul_cancel₀ (-near_point.y) hne]
      ring
    · simp only [screen_to_world]
      rw [if_pos h]

theorem screen_to_world_ground_spec_witness :
    0.001 < |(-1 : ℝ) - 1|
    ∧ (1 : ℝ) + -(1 : ℝ) / ((-1 : ℝ) - 1) * ((-1 : ℝ) - 1) = 0 := by
  have h := (screen_to_world_ground_spec ⟨0, 1, 0⟩ ⟨2, -1, 4⟩).2 (by norm_num)
  exact ⟨by norm_num, h.1⟩

/-- Claim C1 (amended): with physics enabled, the solver pass equals the
spec-side pass: each mass in sequence receives the sum of the pairwise forces
`G * m1 * m2 / d ^ 2` along the XZ unit separation vector (zero when the
separation is at most 0.1, not only below it) plus the attraction toward the
origin with sun effective mass `10 * radius ^ 3` (zero when the distance to
the origin is at most 0.1); its velocity is then updated by `(F/m)*dt`,
damped once by 0.999, and only then is the position updated by `v*dt`.  In
particular two masses exactly 0.05 apart exert zero pairwise force. -/
theorem grav_step_spec (s : SimState) (dt : ℝ) (m1 m2 : CustomMass)
    (h : s.physics_enabled = true)
    (h005 : Real.sqrt ((m2.posX - m1.posX) * (m2.posX - m1.posX)
      + (m2.posZ - m1.posZ) * (m2.posZ - m1.posZ)) = 0.05) :
    (apply_gravitational_forces s dt).custom_masses
      = specPass1 s.planets.headI.radius dt s.custom_masses
    ∧ pairForce m1 m2 = (0, 0) := by
  constructor
  · unfold apply_gravitational_forces
    rw [if_pos h]
    exact pass1_eq_spec _ _ _
  · simp only [pairForce]
    rw [h005, if_neg (by norm_num : ¬ ((0.05 : ℝ) > 0.1))]

/-- Claim C2 (amended): a trail holds at most 101 entries (not 100: the code
evicts only once the length exceeds 100, so the length stabilizes at 101);
the step preserves this bound for every mass, eviction is FIFO, and pushing a
sequence of positions onto an empty trail leaves exactly the most recent
min(n, 101) positions in order. -/
theorem trail_window_spec (s : SimState) (dt : ℝ) (ps : List (ℝ × ℝ))
    (dt2 : ℝ) (F : ℝ × ℝ) (m : CustomMass)
    (h : trailsBounded s.custom_masses) :
    trailsBounded (apply_gravitational_forces s dt).custom_masses
    ∧ ps.foldl trailPush [] = ps.drop (ps.length - 101)
    ∧ (integrate dt2 F m).trail
        = trailPush m.trail ((integrate dt2 F m).posX, (integrate dt2 F m).posZ) := by
  refine ⟨?_, ?_, rfl⟩
  · unfold apply_gravitational_forces
    by_cases hp : s.physics_enabled = true
    · rw [if_pos hp]
      exact pass1_trailsBounded _ _ _ h
    · rw [if_neg hp]
      exact h
  · have hw := foldl_trailPush_window ps [] (by simp)
    simpa using hw

/-- Claim C3 (amended): the curvature grid is fully recomputed from the
current body state (the stored grid is never read), and each cell is the sum
over every planet of `-(radius ^ 2) / max(d, 0.1) ^ 2 * 2.0` (the code uses
the square of the radius, not the cube stated by the claim) plus the sum
over every custom mass of `-mass / max(d, 0.1) ^ 2 * 2.0`, the central body
contributing from the origin when its orbit radius is zero. -/
theorem grid_spec (s : SimState) (g : Grid) (i j : Fin grid_size)
    (p : Planet) (hp : p.orbit_radius = 0) :
    update_spacetime_grid { s with grid_heights := g } = update_spacetime_grid s
    ∧ update_spacetime_grid s i j
        = (s.planets.map (fun q =>
            curvatureTerm (planetGridPos q).1 (planetGridPos q).2 (q.radius ^ 2)
              (i : ℕ) (j : ℕ))).sum
          + (s.custom_masses.map (fun m =>
              curvatureTerm m.posX m.posZ m.mass (i : ℕ) (j : ℕ))).sum
    ∧ planetGridPos p = (0, 0) := by
  refine ⟨rfl, ?_, ?_⟩
  · unfold update_spacetime_grid
    rw [masses_fold_apply, planets_fold_apply]
    simp
  · unfold planetGridPos
    rw [if_pos hp]

/-- Claim C4 (amended): the planet perturbation equals its spec-side form
(each custom mass contributing `mass / d ^ 2 * 0.001` along the separation,
zero when the distance is at most 0.1, not only below it); it changes only
the orbit speed and orbit radius, leaves the planet unchanged when neither
perturbation component exceeds 0.001 in magnitude or when there is no custom
mass, the sun is never perturbed, and the solver step applies exactly this
pass to the planets, after the masses have moved. -/
theorem perturb_spec (masses : List CustomMass) (p : Planet) (s : SimState)
    (dt : ℝ) (sun : Planet) (rest : List Planet)
    (hph : s.physics_enabled = true) :
    perturbPlanet masses p = specPerturbPlanet masses p
    ∧ (perturbPlanet masses p).current_angle = p.current_angle
    ∧ (perturbPlanet masses p).radius = p.radius
    ∧ (perturbPlanet masses p).rotation_speed = p.rotation_speed
    ∧ (perturbPlanet masses p).mass = p.mass
    ∧ (|(perturbSum (p.orbit_radius * Real.cos p.current_angle)
          (p.orbit_radius * Real.sin p.current_angle) masses).1| ≤ 0.001 →
        |(perturbSum (p.orbit_radius * Real.cos p.current_angle)
          (p.orbit_radius * Real.sin p.current_angle) masses).2| ≤ 0.001 →
        perturbPlanet masses p = p)
    ∧ perturbPlanet [] p = p
    ∧ pass2 masses (sun :: rest) = sun :: rest.map (perturbPlanet masses)
    ∧ pass2 masses [] = []
    ∧ (apply_gravitational_forces s dt).planets
        = pass2 (pass1 s.planets.headI.radius dt s.custom_masses) s.planets := by
  refine ⟨perturbPlanet_eq_spec masses p, ?_, ?_, ?_, ?_, ?_, ?_, rfl, rfl, ?_⟩
  · simp only [perturbPlanet]
    split_ifs <;> rfl
  · simp only [perturbPlanet]
    split_ifs <;> rfl
  · simp only [perturbPlanet]
    split_ifs <;> rfl
  · simp only [perturbPlanet]
    split_ifs <;> rfl
  · intro hx hz
    simp only [perturbPlanet]
    rw [if_neg (not_or.mpr ⟨not_lt.mpr hx, not_lt.mpr hz⟩)]
  · simp only [perturbPlanet, perturbSum, List.foldl_nil]
    rw [if_neg (by simp; norm_num)]
  · unfold apply_gravitational_forces
    rw [if_pos hph]

lemma origin_mass_step (t : List (ℝ × ℝ)) :
    integrate 1 (netForce 2 [] (originMass t)) (originMass t)
      = originMass (trailPush t (0, 0)) := by
  have hforce : netForce 2 [] (originMass t) = (0, 0) := by
    simp only [netForce, List.foldl_nil, sunForce, originMass, mkCustomMass]
    norm_num
  rw [hforce]
  simp only [integrate, originMass, mkCustomMass, dampingConst]
  norm_num

lemma origin_step (t : List (ℝ × ℝ)) :
    apply_gravitational_forces (originState t) 1
      = originState (trailPush t (0, 0)) := by
  have h1 : apply_gravitational_forces (originState t) 1
      = { originState t with
          custom_masses := pass1 2 1 [originMass t]
          planets := pass2 (pass1 2 1 [originMass t]) [mkPlanet 2 0 0 0.1] } := rfl
  have hpass : pass1 2 1 [originMass t] = [originMass (trailPush t (0, 0))] := by
    have h0 : pass1 2 1 [originMass t]
        = [integrate 1 (netForce 2 [] (originMass t)) (originMass t)] := rfl
    rw [h0, origin_mass_step]
  rw [h1, hpass]
  rfl

lemma origin_steps (k : ℕ) :
    (fun s => apply_gravitational_forces s 1)^[k] (originState [])
      = originState
          ((List.replicate k ((0 : ℝ), (0 : ℝ))).foldl trailPush []) := by
  induction k with
  | zero => rfl
  | succ k ih =>
    rw [Function.iterate_succ_apply', ih, origin_step,
      List.replicate_succ']
    rw [List.foldl_append, List.foldl_cons, List.foldl_nil]

/-- Claim C2 counterexample: starting from a state with one custom mass at
rest at the origin and an empty trail, 101 gravity-solver steps leave the
trail with 101 entries, exceeding the claimed bound of 100. -/
theorem trail_reaches_101 :
    ((fun s => apply_gravitational_forces s 1)^[101]
        (originState [])).custom_masses.headI.trail.length = 101
    ∧ ¬ ((fun s => apply_gravitational_forces s 1)^[101]
        (originState [])).custom_masses.headI.trail.length ≤ 100 := by
  have hw : (List.replicate 101 ((0 : ℝ), (0 : ℝ))).foldl trailPush []
      = List.replicate 101 ((0 : ℝ), (0 : ℝ)) := by
    rw [foldl_trailPush_window (List.replicate 101 ((0 : ℝ), (0 : ℝ))) [] (by simp)]
    simp
  have hproj : ∀ T : List (ℝ × ℝ),
      (originState T).custom_masses.headI.trail = T := fun T => rfl
  have hlen : ((fun s => apply_gravitational_forces s 1)^[101]
      (originState [])).custom_masses.headI.trail.length = 101 := by
    rw [origin_steps 101, hproj, hw, List.length_replicate]
  exact ⟨hlen, by rw [hlen]; omega⟩

theorem trail_window_spec_witness :
    trailsBounded (apply_gravitational_forces state0 1).custom_masses
    ∧ [((0 : ℝ), (0 : ℝ))].foldl trailPush []
        = [((0 : ℝ), (0 : ℝ))].drop ([((0 : ℝ), (0 : ℝ))].length - 101)
    ∧ (integrate 1 ((0 : ℝ), (0 : ℝ)) (mkCustomMass 0 0 1)).trail
        = trailPush (mkCustomMass 0 0 1).trail
            ((integrate 1 ((0 : ℝ), (0 : ℝ)) (mkCustomMass 0 0 1)).posX,
             (integrate 1 ((0 : ℝ), (0 : ℝ)) (mkCustomMass 0 0 1)).posZ) :=
  trail_window_spec state0 1 [((0 : ℝ), (0 : ℝ))] 1 ((0 : ℝ), (0 : ℝ))
    (mkCustomMass 0 0 1)
    (by intro m hm; simp [state0] at hm)

/-- Claim C9: `find_nearest_mass` returns none exactly when every custom
mass is at XZ distance at least `max_distance`; otherwise it returns a mass
strictly within `max_distance` whose distance is minimal, and on ties the
first mass in iteration order wins (every mass listed before the result is
strictly farther). -/
theorem find_nearest_mass_spec (masses : List CustomMass) (wp : Vec3)
    (maxd : ℝ) :
    (find_nearest_mass masses wp maxd = none
      ↔ ∀ m ∈ masses, maxd ≤ massDistance wp m)
    ∧ ∀ m0, find_nearest_mass masses wp maxd = some m0 →
        massDistance wp m0 < maxd
        ∧ (∀ m ∈ masses, massDistance wp m0 ≤ massDistance wp m)
        ∧ ∃ l1 l2, masses = l1 ++ m0 :: l2
            ∧ ∀ m ∈ l1, massDistance wp m0 < massDistance wp m := by
  constructor
  · constructor
    · intro hnone
      by_contra hc
      push_neg at hc
      obtain ⟨m0, l1, l2, heq, _⟩ := find_nearest_aux_hit wp masses maxd none hc
      unfold find_nearest_mass at hnone
      rw [hnone] at heq
      cases heq
    · intro hall
      exact find_nearest_aux_no_hit wp masses maxd none hall
  · intro m0 hsome
    unfold find_nearest_mass at hsome
    by_cases hex : ∃ m ∈ masses, massDistance wp m < maxd
    · obtain ⟨m0', l1, l2, heq, hsplit, hlt, hall, hbefore⟩ :=
        find_nearest_aux_hit wp masses maxd none hex
      rw [hsome] at heq
      obtain rfl : m0 = m0' := Option.some.inj heq
      exact ⟨hlt, hall, l1, l2, hsplit, hbefore⟩
    · push_neg at hex
      rw [find_nearest_aux_no_hit wp masses maxd none hex] at hsome
      cases hsome

theorem grav_step_spec_witness :
    (apply_gravitational_forces state0 1).custom_masses
      = specPass1 state0.planets.headI.radius 1 state0.custom_masses
    ∧ pairForce (mkCustomMass 0 0 1) (mkCustomMass 0.05 0 1) = (0, 0) := by
  apply grav_step_spec state0 1 (mkCustomMass 0 0 1) (mkCustomMass 0.05 0 1) rfl
  refine sqrt_of_sq _ 0.05 (by norm_num) ?_
  simp only [mkCustomMass]
  norm_num

/-- Claim C1 counterexample: two unit masses exactly 0.1 apart.  The code
yields zero net force on the mass at the origin, while the claimed formula
(zero only strictly below 0.1) yields the force `(10, 0)`. -/
theorem net_force_boundary_counterexample :
    netForce 2 [cexB] cexA = (0, 0)
    ∧ claimNetForce 2 [cexB] cexA = (10, 0)
    ∧ netForce 2 [cexB] cexA ≠ claimNetForce 2 [cexB] cexA := by
  have hdAB : Real.sqrt ((cexB.posX - cexA.posX) * (cexB.posX - cexA.posX)
      + (cexB.posZ - cexA.posZ) * (cexB.posZ - cexA.posZ)) = 0.1 := by
    refine sqrt_of_sq _ 0.1 (by norm_num) ?_
    simp only [cexA, cexB, mkCustomMass]
    norm_num
  have hdA0 : Real.sqrt (cexA.posX ^ 2 + cexA.posZ ^ 2) = 0 := by
    refine sqrt_of_sq _ 0 le_rfl ?_
    simp only [cexA, mkCustomMass]
    norm_num
  have hdA0c : Real.sqrt ((0 - cexA.posX) * (0 - cexA.posX)
      + (0 - cexA.posZ) * (0 - cexA.posZ)) = 0 := by
    refine sqrt_of_sq _ 0 le_rfl ?_
    simp only [cexA, mkCustomMass]
    norm_num
  have hpairCode : pairForce cexA cexB = (0, 0) := by
    simp only [pairForce]
    rw [hdAB, if_neg (by norm_num : ¬ ((0.1 : ℝ) > 0.1))]
  have hpairClaim : claimPairForce cexA cexB = (10, 0) := by
    simp only [claimPairForce]
    rw [hdAB, if_neg (by norm_num : ¬ ((0.1 : ℝ) < 0.1))]
    simp only [cexA, cexB, mkCustomMass, G0, Prod.mk.injEq]
    norm_num
  have hsunCode : sunForce 2 cexA = (0, 0) := by
    simp only [sunForce]
    rw [hdA0c, if_neg (by norm_num : ¬ ((0 : ℝ) > 0.1))]
  have hsunClaim : claimSunForce 2 cexA = (0, 0) := by
    simp only [claimSunForce]
    rw [hdA0, if_pos (by norm_num : (0 : ℝ) < 0.1)]
  have hcode : netForce 2 [cexB] cexA = (0, 0) := by
    simp only [netForce, List.foldl_cons, List.foldl_nil, hpairCode, hsunCode]
    simp
  have hclaim : claimNetForce 2 [cexB] cexA = (10, 0) := by
    simp only [claimNetForce, List.map_cons, List.map_nil, List.sum_cons,
      List.sum_nil, hpairClaim, hsunClaim]
    simp
  refine ⟨hcode, hclaim, ?_⟩
  rw [hcode, hclaim]
  norm_num [Prod.ext_iff]

theorem grid_spec_witness :
    planetGridPos (mkPlanet 2 0 0 0.1) = (0, 0) :=
  (grid_spec state0 (fun _ _ => 0) idx40 idx40 (mkPlanet 2 0 0 0.1) rfl).2.2

/-- Claim C3 counterexample: on a state holding only the sun (radius 2) and
no custom masses, the central grid cell computed by the code is -800 (from
`radius ^ 2 = 4`), while the claimed formula with `radius ^ 3 = 8` yields
-1600. -/
theorem grid_planet_mass_counterexample :
    update_spacetime_grid state0 idx40 idx40 = -800
    ∧ update_spacetime_grid_claim state0 idx40 idx40 = -1600
    ∧ update_spacetime_grid state0 idx40 idx40
        ≠ update_spacetime_grid_claim state0 idx40 idx40 := by
  have hcoord : gridCoord (idx40 : ℕ) = 0 := by
    simp only [gridCoord, idx40, grid_size, grid_spacing]
    norm_num
  have hterm : ∀ mass : ℝ,
      curvatureTerm 0 0 mass (idx40 : ℕ) (idx40 : ℕ) = -mass / (0.1 : ℝ) ^ 2 * 2.0 := by
    intro mass
    simp only [curvatureTerm, hcoord]
    rw [show ((0 : ℝ) - 0) ^ 2 + ((0 : ℝ) - 0) ^ 2 = 0 by norm_num,
      Real.sqrt_zero, max_eq_right (by norm_num : (0 : ℝ) ≤ 0.1)]
  have hplan : planetGridPos (mkPlanet 2 0 0 0.1) = (0, 0) := by
    simp [planetGridPos, mkPlanet]
  have hp : state0.planets = [mkPlanet 2 0 0 0.1] := rfl
  have hm : state0.custom_masses = [] := rfl
  have hcode : update_spacetime_grid state0 idx40 idx40 = -800 := by
    simp only [update_spacetime_grid]
    rw [masses_fold_apply, planets_fold_apply, hp, hm]
    simp only [List.map_cons, List.map_nil, List.sum_cons, List.sum_nil, hplan]
    rw [show (mkPlanet 2 0 0 0.1).radius = 2 from rfl, hterm]
    norm_num
  have hclaim : update_spacetime_grid_claim state0 idx40 idx40 = -1600 := by
    simp only [update_spacetime_grid_claim]
    rw [hp, hm]
    simp only [List.map_cons, List.map_nil, List.sum_cons, List.sum_nil, hplan]
    rw [show (mkPlanet 2 0 0 0.1).radius = 2 from rfl, hterm]
    norm_num
  refine ⟨hcode, hclaim, ?_⟩
  rw [hcode, hclaim]
  norm_num

theorem perturb_spec_witness :
    perturbPlanet [] (mkPlanet 1 5 1 1) = mkPlanet 1 5 1 1
    ∧ (apply_gravitational_forces state0 1).planets
        = pass2 (pass1 state0.planets.headI.radius 1 state0.custom_masses)
            state0.planets := by
  have h := perturb_spec [] (mkPlanet 1 5 1 1) state0 1 (mkPlanet 2 0 0 0.1) [] rfl
  exact ⟨h.2.2.2.2.2.1 (by norm_num [perturbSum]) (by norm_num [perturbSum]),
    h.2.2.2.2.2.2.2.2.2⟩

/-- Claim C4 counterexample: a unit custom mass exactly 0.1 away from the
planet position `(5, 0)`.  The code leaves the planet untouched (the term is
skipped), while the claimed formula (zero only strictly below 0.1) yields the
perturbation `(0.1, 0)` and scales the angular speed from 2 to 2.002. -/
theorem perturb_boundary_counterexample :
    (perturbPlanet [cexM] cexP).orbit_speed = 2
    ∧ (claimPerturbPlanet [cexM] cexP).orbit_speed = 2.002
    ∧ perturbPlanet [cexM] cexP ≠ claimPerturbPlanet [cexM] cexP := by
  have hpx : cexP.orbit_radius * Real.cos cexP.current_angle = 5 := by
    simp [cexP, mkPlanet]
  have hpz : cexP.orbit_radius * Real.sin cexP.current_angle = 0 := by
    simp [cexP, mkPlanet]
  have hdterm : Real.sqrt ((cexM.posX - 5) * (cexM.posX - 5)
      + (cexM.posZ - 0) * (cexM.posZ - 0)) = 0.1 := by
    refine sqrt_of_sq _ 0.1 (by norm_num) ?_
    simp only [cexM, mkCustomMass]
    norm_num
  have htermCode : perturbTerm 5 0 cexM = (0, 0) := by
    simp only [perturbTerm]
    rw [hdterm, if_neg (by norm_num : ¬ ((0.1 : ℝ) > 0.1))]
  have htermClaim : claimPerturbTerm 5 0 cexM = (0.1, 0) := by
    simp only [claimPerturbTerm]
    rw [hdterm, if_neg (by norm_num : ¬ ((0.1 : ℝ) < 0.1))]
    simp only [cexM, mkCustomMass, Prod.mk.injEq]
    norm_num
  have hsumCode : perturbSum (cexP.orbit_radius * Real.cos cexP.current_angle)
      (cexP.orbit_radius * Real.sin cexP.current_angle) [cexM] = (0, 0) := by
    rw [hpx, hpz]
    simp only [perturbSum, List.foldl_cons, List.foldl_nil, htermCode]
    simp
  have hsumClaim : (List.map (claimPerturbTerm
        (cexP.orbit_radius * Real.cos cexP.current_angle)
        (cexP.orbit_radius * Real.sin cexP.current_angle)) [cexM]).sum
      = (0.1, 0) := by
    rw [hpx, hpz]
    simp only [List.map_cons, List.map_nil, List.sum_cons, List.sum_nil, htermClaim]
    simp
  have hcode : perturbPlanet [cexM] cexP = cexP := by
    simp only [perturbPlanet]
    rw [hsumCode, if_neg (by norm_num : ¬ ((0.001 : ℝ) < |((0 : ℝ), (0 : ℝ)).1|
      ∨ (0.001 : ℝ) < |((0 : ℝ), (0 : ℝ)).2|))]
  have hcodeSpeed : (perturbPlanet [cexM] cexP).orbit_speed = 2 := by
    rw [hcode]
    rfl
  have hclaimSpeed : (claimPerturbPlanet [cexM] cexP).orbit_speed = 2.002 := by
    simp only [claimPerturbPlanet]
    rw [hsumClaim, if_pos (Or.inl (lt_of_lt_of_le
      (by norm_num : (0.001 : ℝ) < 0.1) (le_abs_self _)))]
    show cexP.orbit_speed * (1 + ((0.1 : ℝ), (0 : ℝ)).1 * 0.01) = 2.002
    show (2 : ℝ) * (1 + (0.1 : ℝ) * 0.01) = 2.002
    norm_num
  refine ⟨hcodeSpeed, hclaimSpeed, fun heq => ?_⟩
  have hsp := congrArg Planet.orbit_speed heq
  rw [hcodeSpeed, hclaimSpeed] at hsp
  norm_num at hsp

theorem find_nearest_mass_spec_witness :
    find_nearest_mass [wMassA, wMassB] wPoint 2 = some wMassA
    ∧ massDistance wPoint wMassA < 2
    ∧ massDistance wPoint wMassA ≤ massDistance wPoint wMassB := by
  have hdA : massDistance wPoint wMassA = 0.5 := by
    simp only [massDistance]
    refine sqrt_of_sq _ 0.5 (by norm_num) ?_
    simp only [wMassA, wPoint, mkCustomMass]
    norm_num
  have hdB : massDistance wPoint wMassB = 0.5 := by
    simp only [massDistance]
    refine sqrt_of_sq _ 0.5 (by norm_num) ?_
    simp only [wMassB, wPoint, mkCustomMass]
    norm_num
  have hEval : find_nearest_mass [wMassA, wMassB] wPoint 2 = some wMassA := by
    norm_num [find_nearest_mass, find_nearest_aux, hdA, hdB]
  have h := (find_nearest_mass_spec [wMassA, wMassB] wPoint 2).2 wMassA hEval
  exact ⟨hEval, h.1, h.2.1 wMassB (by simp)⟩

end SolarSim
